import Mathlib

/-!
Shallow embedding of `src/simple_log.h`, a process-local rotating file
logger for Windows, and proofs about its rotation cascade, lifecycle
checks and error handling.

Modelling conventions:
- C strings passed as pointers become `Option String` (`none` models a
  null pointer); the `LOG_INFO*` argument becomes `Option LOG_INFO`.
- The Windows critical section of a channel is modelled by two booleans
  on the channel state: `lockInit` (InitializeCriticalSection versus
  DeleteCriticalSection) and `lockHeld` (EnterCriticalSection versus
  LeaveCriticalSection).
- The filesystem is an association list from path strings to entries
  (regular file with a byte size, or directory). Read-only operations
  (`fopen` with mode rb, `_filelength`, `fclose` after a read) are
  deterministic; the fallible environment-dependent operations of the
  write path (`fopen` with mode ab+, `fputs`, `fclose`, `DeleteFile`,
  `MoveFile`) are governed by an explicit oracle `IoOracle` saying which
  calls fail, so theorems quantify over every possible I/O outcome.
- `vsnprintf(buf, n, fmt, args)` is modelled as truncation of the final
  message text to n-1 characters; format expansion itself is not modelled
  (no claim depends on it).
-/

/-- Entry of the modelled filesystem: a regular file with a byte size,
or a directory. -/
inductive Entry where
  | file (size : Nat) : Entry
  | dir : Entry
  deriving DecidableEq, Repr

/-- The filesystem: an association list from paths to entries. -/
abbrev FS := List (String × Entry)

def fsLookup : FS → String → Option Entry
  | [], _ => none
  | (p, e) :: rest, q => if p = q then some e else fsLookup rest q

/-- Win32 PathFileExists: an entry (file or directory) is present. -/
def PathFileExists (fs : FS) (p : String) : Bool :=
  (fsLookup fs p).isSome

/-- Win32 PathIsDirectory. -/
def PathIsDirectory (fs : FS) (p : String) : Bool :=
  fsLookup fs p = some Entry.dir

/-- Effect of a successful Win32 DeleteFile call. -/
def DeleteFile (fs : FS) (p : String) : FS :=
  fs.filter (fun pe => pe.1 ≠ p)

/-- Effect of a successful Win32 MoveFile call: the entry at `src` now
appears at `dst` and is gone from `src`. -/
def MoveFile (fs : FS) (src dst : String) : FS :=
  match fsLookup fs src with
  | none => fs
  | some e => (dst, e) :: DeleteFile (DeleteFile fs src) dst

/-- Effect of `fopen(p, "ab+")` on the filesystem: creates an empty
regular file when nothing is present at `p`. -/
def ensureFile (fs : FS) (p : String) : FS :=
  match fsLookup fs p with
  | some _ => fs
  | none => (p, Entry.file 0) :: fs

/-- Effect of appending `n` bytes to the regular file at `p`. -/
def appendBytes (fs : FS) (p : String) (n : Nat) : FS :=
  fs.map (fun pe =>
    if pe.1 = p then
      match pe.2 with
      | Entry.file sz => (pe.1, Entry.file (sz + n))
      | e => (pe.1, e)
    else pe)

/-- Oracle deciding which fallible I/O calls of one write fail: the
`fopen(..., "ab+")` of the live file, the `fputs` append, the `fclose`,
and the per-path `DeleteFile` / `MoveFile` calls of the rotation
cascade. -/
structure IoOracle where
  openFails : Bool
  appendFails : Bool
  closeFails : Bool
  deleteFails : String → Bool
  moveFails : String → String → Bool

/-- The oracle under which every I/O call succeeds. -/
def noFailEnv : IoOracle :=
  { openFails := false, appendFails := false, closeFails := false,
    deleteFails := fun _ => false, moveFails := fun _ _ => false }

def MAX_LOG_TEXT : Nat := 256
def MAX_FILE_SIZE : Int := 1024
def MAX_LOG_BACKUP : Int := 3

/-- The LOG_INFO structure of `simple_log.h` (the CRITICAL_SECTION is
modelled by the two booleans `lockInit` and `lockHeld`). -/
structure LOG_INFO where
  lockInit : Bool
  lockHeld : Bool
  szLogPath : String
  bUsed : Bool
  nFileSize : Int
  nLogBackup : Int
  szDir : String
  szFname : String
  szFext : String
  deriving DecidableEq, Repr

/-- The SYSTEMTIME structure filled by GetLocalTime. -/
structure SYSTEMTIME where
  wYear : Nat
  wMonth : Nat
  wDay : Nat
  wHour : Nat
  wMinute : Nat
  wSecond : Nat
  wMilliseconds : Nat
  deriving DecidableEq, Repr

def isPathSep (c : Char) : Bool := c = '/' || c = '\\'

/-- CRT `_splitpath`: drive, directory (with trailing separator), file
name stem, extension (with leading dot). -/
def _splitpath (path : String) : String × String × String × String :=
  let cs := path.toList
  let (drive, rest) :=
    match cs with
    | a :: b :: r => if b = ':' then ([a, b], r) else ([], cs)
    | _ => ([], cs)
  let (revName, revDir) := rest.reverse.span (fun c => !(isPathSep c))
  let name := revName.reverse
  let (revExtBody, revStem) := name.reverse.span (fun c => c ≠ '.')
  match revStem with
  | '.' :: stemRev =>
      (String.mk drive, String.mk revDir.reverse,
       String.mk stemRev.reverse, String.mk ('.' :: revExtBody.reverse))
  | _ => (String.mk drive, String.mk revDir.reverse, String.mk name, "")

/-- `_log_level`: name of a log level; the C switch falls through to
"???" for every value outside 1..4. -/
def _log_level (enLevel : Int) : String :=
  if enLevel = 1 then "ERR"
  else if enLevel = 2 then "WAR"
  else if enLevel = 3 then "INF"
  else if enLevel = 4 then "DBG"
  else "???"

/-- `_get_fname_from_path`: file name plus extension from a path; the
literal text "(NULL)" when the input pointer is null. -/
def _get_fname_from_path (szPath : Option String) : String :=
  match szPath with
  | none => "(NULL)"
  | some p =>
      let q := _splitpath p
      q.2.2.1 ++ q.2.2.2

/-- Zero padding of `printf`-style numeric fields such as %04d. -/
def padNum (w : Nat) (n : Nat) : String :=
  let s := toString n
  String.mk (List.replicate (w - s.length) '0') ++ s

/-- The timestamp prefix common to both write variants:
YYYY/MM/DD, HH:MM:SS.mmm -/
def formatTimestamp (t : SYSTEMTIME) : String :=
  padNum 4 t.wYear ++ "/" ++ padNum 2 t.wMonth ++ "/" ++ padNum 2 t.wDay ++
  ", " ++ padNum 2 t.wHour ++ ":" ++ padNum 2 t.wMinute ++ ":" ++
  padNum 2 t.wSecond ++ "." ++ padNum 3 t.wMilliseconds

/-- `_get_backupname`: append the backup number to the log file name,
producing dir + stem + underscore + number + extension; fails (writing
nothing) when the number is negative or exceeds nLogBackup. -/
def _get_backupname (st : LOG_INFO) (nBkNo : Int) : Option String :=
  if nBkNo < 0 ∨ st.nLogBackup < nBkNo then none
  else some (st.szDir ++ st.szFname ++ "_" ++ toString nBkNo ++ st.szFext)

/-- `_get_filesize`: size of the file at the path in 1024-byte units
(the C code right-shifts the byte count by 10); -1 when `fopen` with
mode rb fails, in particular when no regular file is present. -/
def _get_filesize (fs : FS) (szPath : String) : Int :=
  match fsLookup fs szPath with
  | some (Entry.file sz) => Int.ofNat (sz >>> 10)
  | _ => -1

/-- The rename loop of `_backup_file`: for nBkNo from nLogBackup - 1
down to 0, when a regular file is present at backup name nBkNo, attempt
to rename it to backup name nBkNo + 1 (the MoveFile outcome is decided
by the oracle and its failure is ignored). The argument `n` counts the
remaining iterations, so the call with `n = k` handles indices
k - 1, ..., 0. -/
def rotateLoop (st : LOG_INFO) (env : IoOracle) : FS → Nat → FS
  | fs, 0 => fs
  | fs, n + 1 =>
      let fs1 :=
        match _get_backupname st (Int.ofNat n) with
        | none => fs
        | some szBefore =>
            if PathFileExists fs szBefore && !(PathIsDirectory fs szBefore) then
              match _get_backupname st (Int.ofNat n + 1) with
              | none => fs
              | some szAfter =>
                  if env.moveFails szBefore szAfter then fs
                  else MoveFile fs szBefore szAfter
            else fs
      rotateLoop st env fs1 n

/-- The rotation cascade proper of `_backup_file`: delete the oldest
backup (index nLogBackup) when a regular file is present there, then run
the rename loop from index nLogBackup - 1 down to 0. -/
def cascadeRun (st : LOG_INFO) (env : IoOracle) (fs : FS) : FS :=
  let fs1 :=
    match _get_backupname st st.nLogBackup with
    | none => fs
    | some szBefore =>
        if PathFileExists fs szBefore && !(PathIsDirectory fs szBefore) then
          if env.deleteFails szBefore then fs else DeleteFile fs szBefore
        else fs
  rotateLoop st env fs1 st.nLogBackup.toNat

/-- `_backup_file`: measure the live file, return 0 with no action when
the measurement fails (file absent), run the cascade when the measured
size reaches nFileSize; always returns 0. -/
def _backup_file (st : LOG_INFO) (fs : FS) (env : IoOracle) : Int × FS :=
  let fsize := _get_filesize fs st.szLogPath
  if fsize < 0 then (0, fs)
  else if st.nFileSize ≤ fsize then (0, cascadeRun st env fs)
  else (0, fs)

/-- `_copy_filepath`: split the requested path, store drive+directory,
stem and extension, and store backup name 0 as the live log path. -/
def _copy_filepath (st : LOG_INFO) (szPath : Option String) : Int × LOG_INFO :=
  match szPath with
  | none => (-1, st)
  | some path =>
      let q := _splitpath path
      let st1 := { st with szDir := q.1 ++ q.2.1, szFname := q.2.2.1,
                           szFext := q.2.2.2, szLogPath := "" }
      match _get_backupname st1 0 with
      | none => (-1, st1)
      | some name => (0, { st1 with szLogPath := name })

/-- `log_start`: fails only for a null LOG_INFO or path pointer;
otherwise clears the path fields, marks the channel used, stores the
size threshold and backup count, initializes the lock and computes the
decomposition and live path (the result of `_copy_filepath` is
ignored). -/
def log_start (pstLog : Option LOG_INFO) (szPath : Option String) :
    Int × Option LOG_INFO :=
  match pstLog, szPath with
  | none, _ => (-1, none)
  | some st, none => (-1, some st)
  | some st, some path =>
      let st1 := { st with szLogPath := "", szDir := "", szFname := "",
                           szFext := "", bUsed := true,
                           nFileSize := MAX_FILE_SIZE,
                           nLogBackup := MAX_LOG_BACKUP,
                           lockInit := true, lockHeld := false }
      (0, some (_copy_filepath st1 (some path)).2)

/-- `log_end`: fails only for a null LOG_INFO pointer; otherwise
destroys the lock and clears bUsed (there is no check that the channel
is active). -/
def log_end (pstLog : Option LOG_INFO) : Int × Option LOG_INFO :=
  match pstLog with
  | none => (-1, none)
  | some st => (0, some { st with lockInit := false, bUsed := false })

/-- `log_write`: after the eager null/bUsed checks, enter the critical
section, run `_backup_file`, format the line, open the live file in
append mode (on failure return -1 without leaving the critical
section), append the line (result ignored), close (on failure leave the
critical section and return -1), leave the critical section and return
0. Returns the result, the channel state and the filesystem. -/
def log_write (pstLog : Option LOG_INFO) (enLevel : Int)
    (szFmt : Option String) (t : SYSTEMTIME) (fs : FS) (env : IoOracle) :
    Int × Option LOG_INFO × FS :=
  match pstLog, szFmt with
  | none, _ => (-1, none, fs)
  | some st, none => (-1, some st, fs)
  | some st, some fmt =>
      if st.bUsed = false then (-1, some st, fs)
      else
        let st1 := { st with lockHeld := true }
        let fs1 := (_backup_file st1 fs env).2
        let szBuff0 := fmt.take (MAX_LOG_TEXT - 1)
        if env.openFails then (-1, some st1, fs1)
        else
          let fs2 := ensureFile fs1 st1.szLogPath
          let line := (formatTimestamp t ++ ", " ++ _log_level enLevel ++
                       ", " ++ szBuff0 ++ "\r\n").take (MAX_LOG_TEXT * 2 - 1)
          let fs3 := if env.appendFails then fs2
                     else appendBytes fs2 st1.szLogPath line.length
          if env.closeFails then (-1, some { st1 with lockHeld := false }, fs3)
          else (0, some { st1 with lockHeld := false }, fs3)

/-- `log_debug`: identical to `log_write` except for the extra
null-checked szFile/szFunc arguments and the call-site fields in the
formatted line. -/
def log_debug (pstLog : Option LOG_INFO) (enLevel : Int)
    (szFile : Option String) (nLine : Int) (szFunc : Option String)
    (szFmt : Option String) (t : SYSTEMTIME) (fs : FS) (env : IoOracle) :
    Int × Option LOG_INFO × FS :=
  match pstLog, szFmt, szFile, szFunc with
  | none, _, _, _ => (-1, none, fs)
  | some st, none, _, _ => (-1, some st, fs)
  | some st, some _, none, _ => (-1, some st, fs)
  | some st, some _, some _, none => (-1, some st, fs)
  | some st, some fmt, some file, some func =>
      if st.bUsed = false then (-1, some st, fs)
      else
        let st1 := { st with lockHeld := true }
        let fs1 := (_backup_file st1 fs env).2
        let szBuff0 := fmt.take (MAX_LOG_TEXT - 1)
        if env.openFails then (-1, some st1, fs1)
        else
          let fs2 := ensureFile fs1 st1.szLogPath
          let line := (formatTimestamp t ++ ", " ++ _log_level enLevel ++
                       ", " ++ _get_fname_from_path (some file) ++ "(" ++
                       toString nLine ++ "), " ++ func ++ ", " ++ szBuff0 ++
                       "\r\n").take (MAX_LOG_TEXT * 2 - 1)
          let fs3 := if env.appendFails then fs2
                     else appendBytes fs2 st1.szLogPath line.length
          if env.closeFails then (-1, some { st1 with lockHeld := false }, fs3)
          else (0, some { st1 with lockHeld := false }, fs3)

/-- The backup name formula as the spec words it: directory + stem +
underscore + index + extension, with no range check (transcribed from
the spec for the refinement comparison of the cascade). -/
def backupNameSpec (st : LOG_INFO) (i : Nat) : String :=
  st.szDir ++ st.szFname ++ "_" ++ toString i ++ st.szFext

/-- The shift phase of the rotation cascade as the spec words it: for
index from backupCount - 1 down to 0 inclusive, when a regular file
exists at backupName(index), rename it to backupName(index + 1), and
directories at that name are skipped (transcribed from the spec). -/
def shiftSpec (st : LOG_INFO) : FS → Nat → FS
  | fs, 0 => fs
  | fs, n + 1 =>
      let src := backupNameSpec st n
      let fs1 :=
        if PathFileExists fs src && !(PathIsDirectory fs src) then
          MoveFile fs src (backupNameSpec st (n + 1))
        else fs
      shiftSpec st fs1 n

/-- The whole rotation cascade as the spec words it: delete the regular
file at backupName(backupCount) when one exists (skipping a directory),
then shift every lower index up by one (transcribed from the spec). -/
def rotationCascadeSpec (st : LOG_INFO) (fs : FS) : FS :=
  let oldest := backupNameSpec st st.nLogBackup.toNat
  let fs1 :=
    if PathFileExists fs oldest && !(PathIsDirectory fs oldest) then
      DeleteFile fs oldest
    else fs
  shiftSpec st fs1 st.nLogBackup.toNat

example : _splitpath "C:/logs/app.log" = ("C:", "/logs/", "app", ".log") := by decide
example : _splitpath "app" = ("", "", "app", "") := by decide
example : _splitpath "" = ("", "", "", "") := by decide
example : _get_fname_from_path (some "C:\\dir\\a.txt") = "a.txt" := by decide
example : _log_level 7 = "???" := by decide

/-! Concrete fixtures used by the witness and counterexample theorems. -/

/-- A zero-initialized LOG_INFO, as a caller would hold before
`log_start`. -/
def chan0 : LOG_INFO :=
  { lockInit := false, lockHeld := false, szLogPath := "", bUsed := false,
    nFileSize := 0, nLogBackup := 0, szDir := "", szFname := "", szFext := "" }

/-- The channel state produced by a successful
`log_start(&inf, "C:/logs/app.log")`. -/
def stW : LOG_INFO :=
  { lockInit := true, lockHeld := false, szLogPath := "C:/logs/app_0.log",
    bUsed := true, nFileSize := 1024, nLogBackup := 3,
    szDir := "C:/logs/", szFname := "app", szFext := ".log" }

example : (log_start (some chan0) (some "C:/logs/app.log")).2 = some stW := by decide

def t0 : SYSTEMTIME := ⟨2026, 10, 11, 12, 0, 0, 0⟩

/-- A filesystem whose live log file is far above the rotation
threshold, with one existing backup and a directory squatting on the
oldest backup name. -/
def fsW : FS :=
  [("C:/logs/app_0.log", Entry.file 2000000),
   ("C:/logs/app_1.log", Entry.file 5),
   ("C:/logs/app_3.log", Entry.dir)]

def envOpenFail : IoOracle := { noFailEnv with openFails := true }

def envCloseFail : IoOracle := { noFailEnv with closeFails := true }

def envAppendFail : IoOracle := { noFailEnv with appendFails := true }

/-- An oracle under which every rotation delete and rename fails. -/
def envRotFail : IoOracle :=
  { noFailEnv with deleteFails := fun _ => true, moveFails := fun _ _ => true }

theorem noFailEnv_moveFails (a b : String) : noFailEnv.moveFails a b = false := rfl

theorem noFailEnv_deleteFails (a : String) : noFailEnv.deleteFails a = false := rfl

theorem _get_backupname_ofNat (st : LOG_INFO) (n : Nat)
    (h : (n : Int) ≤ st.nLogBackup) :
    _get_backupname st (Int.ofNat n) = some (backupNameSpec st n) := by
  unfold _get_backupname backupNameSpec
  rw [if_neg]
  · rfl
  · simp only [Int.ofNat_eq_natCast]
    omega

theorem rotateLoop_noFail_eq_shiftSpec (st : LOG_INFO) :
    ∀ (n : Nat) (fs : FS), (n : Int) ≤ st.nLogBackup →
      rotateLoop st noFailEnv fs n = shiftSpec st fs n := by
  intro n
  induction n with
  | zero => intro fs _; rfl
  | succ k ih =>
      intro fs h
      have hk1 : (k : Int) ≤ st.nLogBackup := by omega
      rw [rotateLoop, shiftSpec]
      rw [_get_backupname_ofNat st k hk1]
      rw [show Int.ofNat k + 1 = Int.ofNat (k + 1) by
        simp only [Int.ofNat_eq_natCast]; push_cast; ring]
      rw [_get_backupname_ofNat st (k + 1) (by exact_mod_cast h)]
      simp only [noFailEnv_moveFails, Bool.false_eq_true, if_false]
      rw [ih _ hk1]

theorem cascadeRun_noFail_eq_spec (st : LOG_INFO) (fs : FS)
    (h : 0 ≤ st.nLogBackup) :
    cascadeRun st noFailEnv fs = rotationCascadeSpec st fs := by
  unfold cascadeRun rotationCascadeSpec
  have h1 : _get_backupname st st.nLogBackup =
      some (backupNameSpec st st.nLogBackup.toNat) := by
    have h2 := _get_backupname_ofNat st st.nLogBackup.toNat (by omega)
    rwa [Int.ofNat_eq_natCast, Int.toNat_of_nonneg h] at h2
  rw [h1]
  simp only [noFailEnv_deleteFails, Bool.false_eq_true, if_false]
  rw [rotateLoop_noFail_eq_shiftSpec st st.nLogBackup.toNat _ (by omega)]

theorem _backup_file_fired (st : LOG_INFO) (fs : FS) (env : IoOracle)
    (hnn : 0 ≤ _get_filesize fs st.szLogPath)
    (hfire : st.nFileSize ≤ _get_filesize fs st.szLogPath) :
    _backup_file st fs env = (0, cascadeRun st env fs) := by
  unfold _backup_file
  rw [if_neg (by omega), if_pos hfire]

theorem _backup_file_fst (st : LOG_INFO) (fs : FS) (env : IoOracle) :
    (_backup_file st fs env).1 = 0 := by
  unfold _backup_file
  dsimp only
  split
  · rfl
  · split <;> rfl

theorem log_write_fst_env (pstLog : Option LOG_INFO) (lvl : Int)
    (fmt : Option String) (t : SYSTEMTIME) (fs : FS) (env env' : IoOracle)
    (ho : env.openFails = env'.openFails)
    (hc : env.closeFails = env'.closeFails) :
    (log_write pstLog lvl fmt t fs env).1 =
    (log_write pstLog lvl fmt t fs env').1 := by
  cases pstLog with
  | none => rfl
  | some st =>
      cases fmt with
      | none => rfl
      | some f =>
          by_cases hb : st.bUsed = false
          · simp [log_write, hb]
          · by_cases hO : env'.openFails <;> by_cases hC : env'.closeFails <;>
              simp [log_write, hb, ho, hc, hO, hC]

theorem log_write_state (st : LOG_INFO) (lvl : Int) (fmt : Option String)
    (t : SYSTEMTIME) (fs : FS) (env : IoOracle) :
    ∃ b, (log_write (some st) lvl fmt t fs env).2.1 =
      some { st with lockHeld := b } := by
  cases fmt with
  | none => exact ⟨st.lockHeld, rfl⟩
  | some f =>
      by_cases hb : st.bUsed = false
      · refine ⟨st.lockHeld, ?_⟩
        simp only [log_write]
        rw [if_pos hb]
      · by_cases hO : env.openFails
        · exact ⟨true, by simp [log_write, hb, hO]⟩
        · by_cases hC : env.closeFails
          · exact ⟨false, by simp [log_write, hb, hO, hC]⟩
          · exact ⟨false, by simp [log_write, hb, hO, hC]⟩

theorem log_debug_state (st : LOG_INFO) (lvl : Int)
    (file : Option String) (line : Int) (func : Option String)
    (fmt : Option String) (t : SYSTEMTIME) (fs : FS) (env : IoOracle) :
    ∃ b, (log_debug (some st) lvl file line func fmt t fs env).2.1 =
      some { st with lockHeld := b } := by
  cases fmt with
  | none => exact ⟨st.lockHeld, rfl⟩
  | some f =>
      cases file with
      | none => exact ⟨st.lockHeld, rfl⟩
      | some fl =>
          cases func with
          | none => exact ⟨st.lockHeld, rfl⟩
          | some fn =>
              by_cases hb : st.bUsed = false
              · refine ⟨st.lockHeld, ?_⟩
                simp only [log_debug]
                rw [if_pos hb]
              · by_cases hO : env.openFails
                · exact ⟨true, by simp [log_debug, hb, hO]⟩
                · by_cases hC : env.closeFails
                  · exact ⟨false, by simp [log_debug, hb, hO, hC]⟩
                  · exact ⟨false, by simp [log_debug, hb, hO, hC]⟩

/-- Claim C1 (code bug): the spec requires the channel lock to be
released on every exit path of the write operation, but when the
`fopen` of the live file fails both `log_write` and `log_debug` return
-1 while the critical section entered at the top of the call is still
held (`lockHeld` stays true); the close-failure path, by contrast, does
release it. Evaluated at a started channel with a failing open. -/
theorem C1_open_failure_leaves_lock_held :
    (log_write (some stW) 3 (some "hello") t0 [] envOpenFail).1 = -1 ∧
    (log_write (some stW) 3 (some "hello") t0 [] envOpenFail).2.1 =
      some { stW with lockHeld := true } ∧
    (log_debug (some stW) 3 (some "main.c") 42 (some "main")
        (some "hello") t0 [] envOpenFail).1 = -1 ∧
    (log_debug (some stW) 3 (some "main.c") 42 (some "main")
        (some "hello") t0 [] envOpenFail).2.1 =
      some { stW with lockHeld := true } ∧
    (log_write (some stW) 3 (some "hello") t0 [] envCloseFail).2.1 =
      some { stW with lockHeld := false } := by
  refine ⟨rfl, rfl, rfl, rfl, rfl⟩

/-- Claim C2: whenever rotation fires, the filesystem effect of
`_backup_file` is exactly the cascade the spec describes (delete the
regular file at index nLogBackup, then rename index nLogBackup-1 down
to 0 inclusive onto the next slot, skipping directories), and no
delete or rename failure ever changes the result of the enclosing
write call: `_backup_file` always returns 0 and the result of
`log_write` depends only on the open and close outcomes. -/
theorem C2_rotation_cascade (st : LOG_INFO) (fs : FS) (env env' : IoOracle)
    (hbk : 0 ≤ st.nLogBackup)
    (hnn : 0 ≤ _get_filesize fs st.szLogPath)
    (hfire : st.nFileSize ≤ _get_filesize fs st.szLogPath)
    (ho : env.openFails = env'.openFails)
    (hc : env.closeFails = env'.closeFails) :
    (_backup_file st fs noFailEnv).2 = rotationCascadeSpec st fs ∧
    (∀ e : IoOracle, (_backup_file st fs e).1 = 0) ∧
    (∀ pstLog lvl fmt t, (log_write pstLog lvl fmt t fs env).1 =
        (log_write pstLog lvl fmt t fs env').1) := by
  refine ⟨?_, fun e => _backup_file_fst st fs e, ?_⟩
  · rw [_backup_file_fired st fs noFailEnv hnn hfire]
    exact cascadeRun_noFail_eq_spec st fs hbk
  · intro pstLog lvl fmt t
    exact log_write_fst_env pstLog lvl fmt t fs env env' ho hc

theorem C2_rotation_cascade_witness :
    ((0 : Int) ≤ stW.nLogBackup ∧ 0 ≤ _get_filesize fsW stW.szLogPath ∧
      stW.nFileSize ≤ _get_filesize fsW stW.szLogPath) ∧
    ((_backup_file stW fsW noFailEnv).2 = rotationCascadeSpec stW fsW ∧
     (∀ e : IoOracle, (_backup_file stW fsW e).1 = 0) ∧
     (∀ pstLog lvl fmt t, (log_write pstLog lvl fmt t fsW envRotFail).1 =
         (log_write pstLog lvl fmt t fsW noFailEnv).1)) :=
  ⟨⟨by decide, by decide, by decide⟩,
   C2_rotation_cascade stW fsW envRotFail noFailEnv (by decide) (by decide)
     (by decide) rfl rfl⟩

/-- Claim C3: the rotation check measures the live file in 1024-byte
units rounding down (the right shift by 10 equals division by 1024),
runs the cascade exactly when that unit size is at least nFileSize, and
returns 0 with the filesystem untouched when the live file cannot be
opened (absent, or a directory at its path). -/
theorem C3_size_check (st : LOG_INFO) (fs : FS) (env : IoOracle) :
    (∀ sz, fsLookup fs st.szLogPath = some (Entry.file sz) →
        _get_filesize fs st.szLogPath = Int.ofNat (sz / 1024)) ∧
    ((fsLookup fs st.szLogPath = none ∨
      fsLookup fs st.szLogPath = some Entry.dir) →
        _backup_file st fs env = (0, fs)) ∧
    _backup_file st fs env =
      (0, if 0 ≤ _get_filesize fs st.szLogPath ∧
             st.nFileSize ≤ _get_filesize fs st.szLogPath
          then cascadeRun st env fs else fs) := by
  refine ⟨?_, ?_, ?_⟩
  · intro sz hsz
    unfold _get_filesize
    rw [hsz]
    show Int.ofNat (sz >>> 10) = Int.ofNat (sz / 1024)
    rw [Nat.shiftRight_eq_div_pow]
  · intro hno
    unfold _backup_file _get_filesize
    rcases hno with hno | hno <;> rw [hno] <;> rfl
  · unfold _backup_file
    dsimp only
    split
    · rw [if_neg (by omega)]
    · split
      · rw [if_pos (by constructor <;> omega)]
      · rw [if_neg (by omega)]

theorem C3_size_check_witness :
    _get_filesize fsW stW.szLogPath = Int.ofNat (2000000 / 1024) ∧
    _backup_file stW [] noFailEnv = (0, []) ∧
    _backup_file stW fsW noFailEnv =
      (0, if 0 ≤ _get_filesize fsW stW.szLogPath ∧
             stW.nFileSize ≤ _get_filesize fsW stW.szLogPath
          then cascadeRun stW noFailEnv fsW else fsW) :=
  ⟨(C3_size_check stW fsW noFailEnv).1 2000000 (by decide),
   (C3_size_check stW [] noFailEnv).2.1 (Or.inl rfl),
   (C3_size_check stW fsW noFailEnv).2.2⟩

/-- Claim C4: for every path accepted by start, the live log path
stored on the channel equals backup name 0, that is directory + stem +
"_0" + extension of the decomposition of the requested path; the
decomposition fields and live path are computed at start, and neither
write variant ever changes any channel field other than the lock
state. -/
theorem C4_live_path_invariant (st0 : LOG_INFO) (path : String) :
    ∃ st1, (log_start (some st0) (some path)).2 = some st1 ∧
      st1.szLogPath = st1.szDir ++ st1.szFname ++ "_0" ++ st1.szFext ∧
      _get_backupname st1 0 = some st1.szLogPath ∧
      st1.szDir = (_splitpath path).1 ++ (_splitpath path).2.1 ∧
      st1.szFname = (_splitpath path).2.2.1 ∧
      st1.szFext = (_splitpath path).2.2.2 ∧
      (∀ lvl fmt t fs env, ∃ b,
        (log_write (some st1) lvl fmt t fs env).2.1 =
          some { st1 with lockHeld := b }) ∧
      (∀ lvl file line func fmt t fs env, ∃ b,
        (log_debug (some st1) lvl file line func fmt t fs env).2.1 =
          some { st1 with lockHeld := b }) := by
  refine ⟨_, rfl, ?_, rfl, rfl, rfl, rfl,
    fun lvl fmt t fs env => log_write_state _ lvl fmt t fs env,
    fun lvl file line func fmt t fs env =>
      log_debug_state _ lvl file line func fmt t fs env⟩
  show ((_splitpath path).1 ++ (_splitpath path).2.1 ++ (_splitpath path).2.2.1 ++
      "_" ++ toString (0 : Int) ++ (_splitpath path).2.2.2) =
    ((_splitpath path).1 ++ (_splitpath path).2.1 ++ (_splitpath path).2.2.1 ++
      "_0" ++ (_splitpath path).2.2.2)
  rw [String.append_assoc _ "_" (toString (0 : Int)),
    show ("_" : String) ++ toString (0 : Int) = "_0" from rfl]

/-- Claim C5: on an inactive channel (never started or stopped) or a
null message, both write variants fail with -1 and mutate nothing: the
channel state and the filesystem are returned unchanged, and the same
holds for a null LOG_INFO pointer. -/
theorem C5_inactive_or_null_no_mutation (st : LOG_INFO) (lvl : Int)
    (fmt file func : Option String) (line : Int)
    (t : SYSTEMTIME) (fs : FS) (env : IoOracle)
    (h : st.bUsed = false ∨ fmt = none) :
    log_write (some st) lvl fmt t fs env = (-1, some st, fs) ∧
    log_debug (some st) lvl file line func fmt t fs env = (-1, some st, fs) ∧
    log_write none lvl fmt t fs env = (-1, none, fs) ∧
    log_debug none lvl file line func fmt t fs env = (-1, none, fs) := by
  refine ⟨?_, ?_, rfl, rfl⟩
  · cases fmt with
    | none => rfl
    | some f =>
        rcases h with h | h
        · simp only [log_write]
          rw [if_pos h]
        · exact absurd h (by simp)
  · cases fmt with
    | none => rfl
    | some f =>
        rcases h with h | h
        · cases file with
          | none => rfl
          | some fl =>
              cases func with
              | none => rfl
              | some fn =>
                  simp only [log_debug]
                  rw [if_pos h]
        · exact absurd h (by simp)

theorem C5_inactive_or_null_no_mutation_witness :
    (chan0.bUsed = false ∨ (some "x" : Option String) = none) ∧
    (log_write (some chan0) 3 (some "x") t0 fsW noFailEnv =
      (-1, some chan0, fsW) ∧
     log_debug (some chan0) 3 (some "m.c") 1 (some "f") (some "x") t0 fsW
        noFailEnv = (-1, some chan0, fsW) ∧
     log_write none 3 (some "x") t0 fsW noFailEnv = (-1, none, fsW) ∧
     log_debug none 3 (some "m.c") 1 (some "f") (some "x") t0 fsW
        noFailEnv = (-1, none, fsW)) :=
  ⟨Or.inl rfl,
   C5_inactive_or_null_no_mutation chan0 3 (some "x") (some "m.c") (some "f")
     1 t0 fsW noFailEnv (Or.inl rfl)⟩

/-- Claim C6 counterexample: `log_end` has no bUsed check, so stopping
a channel that is already inactive (here the zeroed, never-started
chan0 with bUsed = false) returns 0 (success), not the failure the
claim requires. -/
theorem C6_stop_inactive_returns_success :
    chan0.bUsed = false ∧ (log_end (some chan0)).1 = 0 :=
  ⟨rfl, rfl⟩

/-- Claim C6 as amended: stop fails only for a null LOG_INFO pointer;
for every non-null channel, active or not, it destroys the lock, marks
the channel inactive and returns success. -/
theorem C6_stop_behavior :
    (log_end none).1 = -1 ∧
    ∀ st : LOG_INFO, log_end (some st) =
      (0, some { st with lockInit := false, bUsed := false }) :=
  ⟨rfl, fun _ => rfl⟩

/-- Claim C7 counterexample: `log_start` checks the path pointer only
for null, so the empty path is accepted: start on the empty string
returns 0 and marks the channel active (its live path becomes "_0"). -/
theorem C7_start_accepts_empty_path :
    (log_start (some chan0) (some "")).1 = 0 ∧
    ∃ s, (log_start (some chan0) (some "")).2 = some s ∧
      s.bUsed = true ∧ s.szLogPath = "_0" := by
  exact ⟨rfl, ⟨_, rfl, rfl, by decide⟩⟩

/-- Claim C7 as amended: start fails only for a null LOG_INFO or path
pointer; for every non-null path, the empty string included, it resets
and computes the decomposition fields, derives the live path as backup
name 0, initializes the lock, marks the channel active and returns
success. -/
theorem C7_start_behavior :
    (∀ p, log_start none p = (-1, none)) ∧
    (∀ st, log_start (some st) none = (-1, some st)) ∧
    (∀ st0 path, ∃ s, log_start (some st0) (some path) = (0, some s) ∧
      s.bUsed = true ∧ s.lockInit = true ∧ s.lockHeld = false ∧
      s.nFileSize = MAX_FILE_SIZE ∧ s.nLogBackup = MAX_LOG_BACKUP ∧
      s.szDir = (_splitpath path).1 ++ (_splitpath path).2.1 ∧
      s.szFname = (_splitpath path).2.2.1 ∧
      s.szFext = (_splitpath path).2.2.2 ∧
      _get_backupname s 0 = some s.szLogPath) :=
  ⟨fun _ => rfl, fun _ => rfl,
   fun _ _ => ⟨_, rfl, rfl, rfl, rfl, rfl, rfl, rfl, rfl, rfl, rfl⟩⟩

/-- Claim C8: `_get_backupname` produces directory + stem + underscore
+ index + extension for every index between 0 and nLogBackup inclusive,
and fails producing nothing for every negative index and every index
strictly above nLogBackup. -/
theorem C8_backupname_range (st : LOG_INFO) (n : Int) :
    (0 ≤ n → n ≤ st.nLogBackup →
      _get_backupname st n =
        some (st.szDir ++ st.szFname ++ "_" ++ toString n ++ st.szFext)) ∧
    (n < 0 ∨ st.nLogBackup < n → _get_backupname st n = none) := by
  constructor
  · intro h1 h2
    unfold _get_backupname
    rw [if_neg (by omega)]
  · intro h
    unfold _get_backupname
    rw [if_pos h]

theorem C8_backupname_range_witness :
    ((0 : Int) ≤ 2 ∧ (2 : Int) ≤ stW.nLogBackup ∧
      _get_backupname stW 2 =
        some (stW.szDir ++ stW.szFname ++ "_" ++ toString (2 : Int) ++
          stW.szFext)) ∧
    (stW.nLogBackup < 5 ∧ _get_backupname stW 5 = none) :=
  ⟨⟨by decide, by decide,
    (C8_backupname_range stW 2).1 (by decide) (by decide)⟩,
   ⟨by decide, (C8_backupname_range stW 5).2 (Or.inr (by decide))⟩⟩

/-- Claim C9: the level-name mapping is total: 1, 2, 3, 4 render as
ERR, WAR, INF, DBG, and every other numeric level renders as the
literal "???" rather than failing. -/
theorem C9_level_names :
    _log_level 1 = "ERR" ∧ _log_level 2 = "WAR" ∧
    _log_level 3 = "INF" ∧ _log_level 4 = "DBG" ∧
    ∀ n : Int, n ≠ 1 → n ≠ 2 → n ≠ 3 → n ≠ 4 → _log_level n = "???" := by
  refine ⟨rfl, rfl, rfl, rfl, ?_⟩
  intro n h1 h2 h3 h4
  unfold _log_level
  rw [if_neg h1, if_neg h2, if_neg h3, if_neg h4]

theorem C9_level_names_witness :
    ((0 : Int) ≠ 1 ∧ (0 : Int) ≠ 2 ∧ (0 : Int) ≠ 3 ∧ (0 : Int) ≠ 4) ∧
    _log_level 0 = "???" :=
  ⟨⟨by decide, by decide, by decide, by decide⟩,
   C9_level_names.2.2.2.2 0 (by decide) (by decide) (by decide) (by decide)⟩

/-- Claim C10: on a started channel with a non-null format string, both
write variants return 0 whenever the open and the close succeed, no
matter whether the append itself fails: the result of `fputs` is never
inspected, so only open and close failures reach the caller. -/
theorem C10_append_result_ignored (st : LOG_INFO) (lvl : Int)
    (fmt file func : String) (line : Int) (t : SYSTEMTIME) (fs : FS)
    (env : IoOracle) (hused : st.bUsed = true)
    (ho : env.openFails = false) (hc : env.closeFails = false) :
    (log_write (some st) lvl (some fmt) t fs env).1 = 0 ∧
    (log_debug (some st) lvl (some file) line (some func) (some fmt) t fs
        env).1 = 0 := by
  constructor
  · simp [log_write, hused, ho, hc]
  · simp [log_debug, hused, ho, hc]

theorem C10_append_result_ignored_witness :
    (stW.bUsed = true ∧ envAppendFail.openFails = false ∧
      envAppendFail.closeFails = false ∧ envAppendFail.appendFails = true) ∧
    ((log_write (some stW) 3 (some "msg") t0 fsW envAppendFail).1 = 0 ∧
     (log_debug (some stW) 3 (some "main.c") 7 (some "main") (some "msg") t0
        fsW envAppendFail).1 = 0) :=
  ⟨⟨rfl, rfl, rfl, rfl⟩,
   C10_append_result_ignored stW 3 "msg" "main.c" "main" 7 t0 fsW
     envAppendFail rfl rfl rfl⟩
